import Mathlib

/-!
# Verification of the Govee log monitor (`govee_monitor.py`)

Shallow embedding of the `GoveeMonitor` class: the pure helpers
(`parse_line`, `get_log_filename`, `scan_sensors`, the payload built by
`send_record`) are translated directly, and the stateful loops
(`monitor_loop`, `discovery_loop`) are embedded as step functions over an
explicit state, driven by one environment snapshot (filesystem contents,
clock, stop flag) per loop iteration.  File contents are modelled at line
granularity: a file is a list of lines, the read cursor is the number of
lines consumed, and `seek(0, 2)` places the cursor at the current number
of lines.
-/

namespace GoveeMonitor

/-- Whitespace characters recognised by Python's `str.split()` (ASCII range). -/
def isPyWs (c : Char) : Bool :=
  c = ' ' || c = '\t' || c = '\n' || c = '\r' || c = '\x0b' || c = '\x0c'

/-- `line.strip().split()`: split on runs of whitespace, dropping empty tokens.
The accumulator `cur` holds the characters of the current token, reversed. -/
def splitWsAux (cur : List Char) : List Char → List (List Char)
  | [] => if cur = [] then [] else [cur.reverse]
  | c :: cs =>
    if isPyWs c then
      if cur = [] then splitWsAux [] cs else cur.reverse :: splitWsAux [] cs
    else splitWsAux (c :: cur) cs

/-- The whitespace tokens of a line, as in `line.strip().split()`. -/
def str_split_ws (line : String) : List String :=
  (splitWsAux [] line.data).map String.mk

/-- A parsed reading: the five positional fields of a log line
(`parse_line`'s result dictionary). -/
structure Reading where
  date : String
  time : String
  temperature : String
  humidity : String
  battery : String
deriving Repr, DecidableEq

/-- `GoveeMonitor.parse_line`: split the line on whitespace; reject if fewer
than 5 tokens, otherwise take the first five positionally. -/
def parse_line (line : String) : Option Reading :=
  let parts := str_split_ws line
  if parts.length < 5 then none
  else some { date := parts.getD 0 "", time := parts.getD 1 "",
              temperature := parts.getD 2 "", humidity := parts.getD 3 "",
              battery := parts.getD 4 "" }

/-- `os.path.join(a, b)` (POSIX): `b` if it is absolute or `a` is empty,
otherwise `a` and `b` joined with exactly one `/`. -/
def joinPath (a b : String) : String :=
  if b.data.take 1 = ['/'] then b
  else if a.data = [] then b
  else if a.data.getLast? = some '/' then a ++ b
  else a ++ "/" ++ b

/-- Python's `f"{n:02d}"` for a natural number: zero-padded to width 2. -/
def format02d (n : Nat) : String :=
  if n < 10 then "0" ++ Nat.repr n else Nat.repr n

/-- `GoveeMonitor.get_log_filename`: the log directory joined with
`gvh-<sensor_id>-<year>-<month:02d>.txt`, where the year is rendered by
`str` (no padding) and the month is zero-padded to two digits. -/
def get_log_filename (log_dir sensor_id : String) (year month : Nat) : String :=
  joinPath log_dir
    ("gvh-" ++ sensor_id ++ "-" ++ Nat.repr year ++ "-" ++ format02d month ++ ".txt")

/-- A year zero-padded to 4 digits: spec-side rendering of the `<YYYY>`
segment of the documented pattern `gvh-<DeviceId>-<YYYY>-<MM>.txt`. -/
def pad4 (n : Nat) : String :=
  String.mk (List.replicate (4 - (Nat.repr n).length) '0') ++ Nat.repr n

/-- The filename pattern as the spec words it (`gvh-<DeviceId>-<YYYY>-<MM>.txt`
with a 4-digit year segment): a spec-side definition, for comparison with
the code's `get_log_filename`. -/
def spec_log_filename (log_dir sensor_id : String) (year month : Nat) : String :=
  joinPath log_dir
    ("gvh-" ++ sensor_id ++ "-" ++ pad4 year ++ "-" ++ format02d month ++ ".txt")

/-- The JSON payload built by `send_record`: exactly the six fields of the
posted object. -/
structure Payload where
  id : String
  user : String
  datetime : String
  temperature : String
  humidity : String
  battery : String
deriving Repr, DecidableEq

/-- One HTTP POST attempt issued by `requests.post`: URL, timeout in
seconds, content-type header, and JSON body. -/
structure HttpRequest where
  url : String
  timeout : Nat
  contentType : String
  body : Payload
deriving Repr, DecidableEq

/-- The outcome of the single `requests.post` call: either a response with a
status code and text, or a raised transport exception. -/
inductive HttpOutcome where
  | response (status_code : Nat) (text : String)
  | exception (msg : String)
deriving Repr, DecidableEq

/-- `GoveeMonitor.send_record`: build the six-field payload, issue one POST
(returned as a one-element request list), and report success iff the
response status is 200; an exception is caught and reported as failure. -/
def send_record (api_url username sensor_id : String) (record : Reading)
    (outcome : HttpOutcome) : List HttpRequest × Bool :=
  let payload : Payload :=
    { id := sensor_id, user := username,
      datetime := record.date ++ " " ++ record.time,
      temperature := record.temperature, humidity := record.humidity,
      battery := record.battery }
  let req : HttpRequest :=
    { url := api_url, timeout := 5, contentType := "application/json",
      body := payload }
  match outcome with
  | .response code _ => ([req], code == 200)
  | .exception _ => ([req], false)

/-! ## Discovery: `scan_sensors` -/

/-- The tail of the regex `gvh-(.+)-\d{4}-\d{2}\.txt` after the capture
group: true iff the list starts with `-DDDD-DD.txt` (ASCII digits). -/
def checkDateSuffix : List Char → Bool
  | '-' :: a :: b :: c :: d :: '-' :: e :: f :: '.' :: 't' :: 'x' :: 't' :: _ =>
    a.isDigit && b.isDigit && c.isDigit && d.isDigit && e.isDigit && f.isDigit
  | _ => false

/-- Backtracking of the greedy `(.+)`: the largest `k` with `1 ≤ k ≤ n` such
that the date suffix matches at position `k`, if any. -/
def greedyFrom : Nat → List Char → Option Nat
  | 0, _ => none
  | k + 1, t =>
    if checkDateSuffix (t.drop (k + 1)) then some (k + 1) else greedyFrom k t

/-- `re.match(r"gvh-(.+)-\d{4}-\d{2}\.txt", filename)`: anchored at the start
only; `.` does not match a newline, and `(.+)` is greedy, so the capture
extends to the last position (before any newline) where the date suffix
matches.  Returns the captured group. -/
def extract_sensor_id (filename : String) : Option String :=
  let cs := filename.data
  if cs.take 4 = ['g', 'v', 'h', '-'] then
    let t := cs.drop 4
    match greedyFrom (t.takeWhile (fun c => c ≠ '\n')).length t with
    | some k => some (String.mk (t.take k))
    | none => none
  else none

/-- The filter applied by `glob.glob(os.path.join(log_dir, "gvh-*.txt"))` to
a basename: prefix `gvh-` and suffix `.txt`. -/
def globMatch (filename : String) : Bool :=
  (['g', 'v', 'h', '-'].isPrefixOf filename.data) &&
  (['.', 't', 'x', 't'].isSuffixOf filename.data)

/-- One file of the listing as processed by the `scan_sensors` loop body:
the glob filter followed by the regex match. -/
def extract_id_of_file (filename : String) : Option String :=
  if globMatch filename then extract_sensor_id filename else none

/-- `GoveeMonitor.scan_sensors`: over a directory listing (basenames), keep
every extracted sensor id that is not already monitored, in listing order.
The membership check is against `monitored` only — the accumulating result
list is never consulted. -/
def scan_sensors (files : List String) (monitored : List String) : List String :=
  match files with
  | [] => []
  | f :: fs =>
    match extract_id_of_file f with
    | some sid =>
      if sid ∈ monitored then scan_sensors fs monitored
      else sid :: scan_sensors fs monitored
    | none => scan_sensors fs monitored

/-! ## The Tailer state machine (`monitor_loop`) -/

/-- One environment snapshot for one `monitor_loop` iteration: the stop
flag, the wall clock, whether `open` raises, and the filesystem (path ↦
lines). -/
structure Env where
  stop : Bool
  year : Nat
  month : Nat
  openFail : Bool
  files : List (String × List String)
deriving Repr, DecidableEq

/-- Contents of a path in the snapshot, if the path exists. -/
def Env.lookup (env : Env) (p : String) : Option (List String) :=
  (env.files.find? (fun kv => kv.1 == p)).map (·.2)

/-- `os.path.exists`. -/
def Env.pathExists (env : Env) (p : String) : Bool :=
  (env.lookup p).isSome

/-- `readline()` on the open handle: the line at the cursor, if the file has
grown past it (EOF returns the falsy `""`, modelled as `none`). -/
def Env.readline (env : Env) (p : String) (pos : Nat) : Option String :=
  match env.lookup p with
  | some lines => lines[pos]?
  | none => none

/-- The local state of `monitor_loop`: `current_file_path`, and
`current_file` as the open path with the cursor (lines consumed), or
`none` when closed. -/
structure TailerState where
  current_file_path : String
  handle : Option (String × Nat)
deriving Repr, DecidableEq

/-- Observable effects of one iteration, in order. -/
inductive Effect where
  | opened (path : String)
  | sent (r : Reading)
  | closedFile
  | openError
  | sleptRetry
  | sleptCheck
deriving Repr, DecidableEq

/-- The readings handed to `send_record`, in order. -/
def sentOf (effs : List Effect) : List Reading :=
  effs.filterMap fun e => match e with | .sent r => some r | _ => none

/-- One iteration of the `monitor_loop` body (the stop flag having tested
false): open the file if closed (tail from the end), otherwise read one
line and forward it if it parses, and at end-of-file check for a rollover
before sleeping. -/
def monitor_step (log_dir sensor_id : String) (env : Env) (s : TailerState) :
    TailerState × List Effect :=
  match s.handle with
  | none =>
    if env.pathExists s.current_file_path then
      if env.openFail then (s, [.openError, .sleptRetry])
      else
        let eofPos := ((env.lookup s.current_file_path).getD []).length
        ({ s with handle := some (s.current_file_path, eofPos) },
         [.opened s.current_file_path])
    else
      ({ s with current_file_path :=
          get_log_filename log_dir sensor_id env.year env.month },
       [.sleptRetry])
  | some (p, pos) =>
    match env.readline p pos with
    | some line =>
      match parse_line line with
      | some r => ({ s with handle := some (p, pos + 1) }, [.sent r])
      | none => ({ s with handle := some (p, pos + 1) }, [])
    | none =>
      let expected := get_log_filename log_dir sensor_id env.year env.month
      if expected ≠ s.current_file_path ∧ env.pathExists expected = true then
        ({ current_file_path := expected, handle := none }, [.closedFile])
      else (s, [.sleptCheck])

/-- `monitor_loop`, driven by one environment snapshot per iteration.  On a
raised stop flag the loop exits, closing the handle if one is open; an
exhausted snapshot list leaves the (still running) loop's state as is. -/
def monitor_run (log_dir sensor_id : String) :
    List Env → TailerState → TailerState × List Effect
  | [], s => (s, [])
  | env :: rest, s =>
    if env.stop then
      (⟨s.current_file_path, none⟩, if s.handle.isSome then [.closedFile] else [])
    else
      let r := monitor_step log_dir sensor_id env s
      let r' := monitor_run log_dir sensor_id rest r.1
      (r'.1, r.2 ++ r'.2)

/-! ## The Discovery Loop (`discovery_loop`) -/

/-- One environment snapshot for one `discovery_loop` iteration: the stop
flag and the directory listing (basenames). -/
structure DiscoveryEnv where
  stop : Bool
  listing : List String
deriving Repr, DecidableEq

/-- `discovery_loop`: per iteration, scan for new sensors, add each to the
monitored set and spawn a `monitor_loop` worker for it.  Returns the final
monitored set (as a list, membership being what matters) and the ids the
spawned workers were started for, in spawn order. -/
def discovery_run : List DiscoveryEnv → List String → List String × List String
  | [], monitored => (monitored, [])
  | env :: rest, monitored =>
    if env.stop then (monitored, [])
    else
      let new := scan_sensors env.listing monitored
      let r := discovery_run rest (monitored ++ new)
      (r.1, new ++ r.2)

end GoveeMonitor


namespace GoveeMonitor

/-- A number in [1000, 9999] renders to exactly 4 digit characters
(unrolling `Nat.toDigitsCore` four times). -/
lemma toDigitsCore_len4 (f n : Nat) (l : List Char)
    (h1 : 1000 ≤ n) (h2 : n ≤ 9999) :
    (Nat.toDigitsCore 10 (f + 4) n l).length = l.length + 4 := by
  have d1 : ¬ n / 10 = 0 := by omega
  have d2 : ¬ n / 10 / 10 = 0 := by omega
  have d3 : ¬ n / 10 / 10 / 10 = 0 := by omega
  have d4 : n / 10 / 10 / 10 / 10 = 0 := by omega
  simp only [Nat.toDigitsCore, d1, d2, d3, d4, if_false, if_true, ite_true, ite_false,
    List.length_cons]

/-- `str(n)` has exactly 4 characters for 1000 ≤ n ≤ 9999. -/
lemma repr_length_eq_four (n : Nat) (h1 : 1000 ≤ n) (h2 : n ≤ 9999) :
    (Nat.repr n).length = 4 := by
  have h : n + 1 = (n - 3) + 4 := by omega
  have := toDigitsCore_len4 (n - 3) n [] h1 h2
  rw [← h] at this
  simpa [Nat.repr, Nat.toDigits, List.asString, String.length] using this

/-- Claim C7, counterexample: the code renders the year unpadded (`str(now.year)`),
so for year 999 the year segment is `999`, not a 4-digit `<YYYY>` segment, and
`get_log_filename` disagrees with the spec-side pattern. -/
theorem get_log_filename_year_not_padded :
    get_log_filename "" "A1" 999 1 = "gvh-A1-999-01.txt" ∧
    get_log_filename "" "A1" 999 1 ≠ spec_log_filename "" "A1" 999 1 := by
  decide

/-- Claim C7 (amended): `get_log_filename` is a pure function of
(DeviceId, year, month) returning the log directory joined with
`gvh-<DeviceId>-<year>-<MM>.txt`, month zero-padded to 2 digits and the year
rendered as its unpadded decimal digits — which is a 4-digit segment exactly
when 1000 ≤ year ≤ 9999, in which case it agrees with the spec's
`<YYYY>` pattern. -/
theorem get_log_filename_spec (log_dir sensor_id : String) (year month : Nat)
    (h1 : 1000 ≤ year) (h2 : year ≤ 9999) :
    get_log_filename log_dir sensor_id year month =
      spec_log_filename log_dir sensor_id year month ∧
    (Nat.repr year).length = 4 := by
  have hl := repr_length_eq_four year h1 h2
  refine ⟨?_, hl⟩
  unfold get_log_filename spec_log_filename pad4
  rw [hl]
  norm_num
  congr 1

/-- Witness for `get_log_filename_spec` at year 2023, month 5. -/
theorem get_log_filename_spec_witness :
    (1000 : Nat) ≤ 2023 ∧ (2023 : Nat) ≤ 9999 ∧
    (get_log_filename "/tmp/logs" "A1" 2023 5 =
        spec_log_filename "/tmp/logs" "A1" 2023 5 ∧
      (Nat.repr 2023).length = 4) :=
  ⟨by norm_num, by norm_num,
    get_log_filename_spec "/tmp/logs" "A1" 2023 5 (by norm_num) (by norm_num)⟩

/-- Claim C4: `parse_line` splits on whitespace; with fewer than 5 tokens it
returns no Reading, and with 5 or more it returns the first five tokens
positionally as raw strings, ignoring any further tokens. -/
theorem parse_line_spec (line : String) :
    ((str_split_ws line).length < 5 → parse_line line = none) ∧
    (∀ d t te hu b rest, str_split_ws line = d :: t :: te :: hu :: b :: rest →
      parse_line line = some ⟨d, t, te, hu, b⟩) := by
  constructor
  · intro h
    simp [parse_line, h]
  · intro d t te hu b rest h
    simp [parse_line, h, List.getD]

/-- Witness for `parse_line_spec`: a 2-token line is rejected, a 6-token line
yields its first five tokens. -/
theorem parse_line_spec_witness :
    parse_line "2023-10-27 10:00:00" = none ∧
    parse_line "2023-10-27 10:00:00 22.5 45 88 extra" =
      some ⟨"2023-10-27", "10:00:00", "22.5", "45", "88"⟩ :=
  ⟨(parse_line_spec "2023-10-27 10:00:00").1 (by decide),
   (parse_line_spec "2023-10-27 10:00:00 22.5 45 88 extra").2
     "2023-10-27" "10:00:00" "22.5" "45" "88" ["extra"] (by decide)⟩

/-- Claim C5: `send_record` issues exactly one POST with the six-field JSON
body (`datetime` being date and time joined by one space), a JSON
content-type header and a 5-second timeout; it reports success iff the
response status is 200, and reports failure (no exception, no retry) on any
other status or on a thrown transport exception. -/
theorem send_record_spec (api_url username sensor_id : String) (record : Reading)
    (outcome : HttpOutcome) :
    (send_record api_url username sensor_id record outcome).1 =
      [{ url := api_url, timeout := 5, contentType := "application/json",
         body := { id := sensor_id, user := username,
                   datetime := record.date ++ " " ++ record.time,
                   temperature := record.temperature, humidity := record.humidity,
                   battery := record.battery } }] ∧
    (send_record api_url username sensor_id record outcome).2 =
      (match outcome with
       | .response code _ => code == 200
       | .exception _ => false) := by
  cases outcome <;> simp [send_record]

/-- Claim C1, code-bug exhibit: one scan over a listing holding two months'
files of the same device returns that DeviceId twice — the membership check
is only against the monitored set, which a scan does not update — and the
discovery loop then spawns two monitor workers for it. -/
theorem scan_sensors_duplicate_device :
    scan_sensors ["gvh-A-2023-09.txt", "gvh-A-2023-10.txt"] [] = ["A", "A"] ∧
    (discovery_run [⟨false, ["gvh-A-2023-09.txt", "gvh-A-2023-10.txt"]⟩] []).2 =
      ["A", "A"] := by
  decide

/-- Claim C9: once the stop signal is set, the Tailer loop and the Discovery
Loop exit on the very next iteration's check, the Tailer closing its file
handle iff it still holds one, with no further effects. -/
theorem stop_signal_spec :
    (∀ (log_dir sensor_id : String) (env : Env) (envs : List Env) (s : TailerState),
      env.stop = true →
      monitor_run log_dir sensor_id (env :: envs) s =
        (⟨s.current_file_path, none⟩,
         if s.handle.isSome then [Effect.closedFile] else [])) ∧
    (∀ (env : DiscoveryEnv) (envs : List DiscoveryEnv) (monitored : List String),
      env.stop = true →
      discovery_run (env :: envs) monitored = (monitored, [])) := by
  constructor
  · intro log_dir sensor_id env envs s h
    simp [monitor_run, h]
  · intro env envs monitored h
    simp [discovery_run, h]

/-- Witness for `stop_signal_spec` on concrete stopped environments. -/
theorem stop_signal_spec_witness :
    (true = true) ∧
    monitor_run "d" "S" [⟨true, 2023, 5, false, []⟩]
        ⟨"d/gvh-S-2023-05.txt", some ("d/gvh-S-2023-05.txt", 3)⟩ =
      (⟨"d/gvh-S-2023-05.txt", none⟩, [Effect.closedFile]) ∧
    discovery_run [⟨true, ["gvh-A-2023-09.txt"]⟩] ["B"] = (["B"], []) := by
  refine ⟨rfl, ?_, ?_⟩
  · exact stop_signal_spec.1 "d" "S" ⟨true, 2023, 5, false, []⟩ []
      ⟨"d/gvh-S-2023-05.txt", some ("d/gvh-S-2023-05.txt", 3)⟩ rfl
  · exact stop_signal_spec.2 ⟨true, ["gvh-A-2023-09.txt"]⟩ [] ["B"] rfl

/-- Claim C3: at end-of-file the Tailer recomputes the expected filename; if
it differs from the open path and the new file exists it closes the handle
exactly once, discards the cursor and returns to Closed targeting the new
path; if the name is unchanged, or it differs but the file is absent, it
sleeps the poll interval with state unchanged. -/
theorem monitor_rollover_spec (log_dir sensor_id : String) (env : Env)
    (s : TailerState) (p : String) (pos : Nat)
    (hh : s.handle = some (p, pos))
    (hr : Env.readline env p pos = none) :
    (get_log_filename log_dir sensor_id env.year env.month ≠ s.current_file_path →
      Env.pathExists env (get_log_filename log_dir sensor_id env.year env.month) = true →
      monitor_step log_dir sensor_id env s =
        (⟨get_log_filename log_dir sensor_id env.year env.month, none⟩,
         [Effect.closedFile])) ∧
    ((get_log_filename log_dir sensor_id env.year env.month = s.current_file_path ∨
      Env.pathExists env (get_log_filename log_dir sensor_id env.year env.month) = false) →
      monitor_step log_dir sensor_id env s = (s, [Effect.sleptCheck])) := by
  obtain ⟨path, hd⟩ := s
  simp only at hh
  subst hh
  constructor
  · intro h1 h2
    simp [monitor_step, hr, h1, h2]
  · intro h
    rcases h with h | h
    · simp [monitor_step, hr, h]
    · simp [monitor_step, hr, h]

/-- Witness for `monitor_rollover_spec`: a concrete month rollover. -/
theorem monitor_rollover_spec_witness :
    monitor_step "d" "S" ⟨false, 2023, 6, false, [("d/gvh-S-2023-06.txt", [])]⟩
        ⟨"d/gvh-S-2023-05.txt", some ("d/gvh-S-2023-05.txt", 0)⟩ =
      (⟨"d/gvh-S-2023-06.txt", none⟩, [Effect.closedFile]) := by
  have h := (monitor_rollover_spec "d" "S"
      ⟨false, 2023, 6, false, [("d/gvh-S-2023-06.txt", [])]⟩
      ⟨"d/gvh-S-2023-05.txt", some ("d/gvh-S-2023-05.txt", 0)⟩
      "d/gvh-S-2023-05.txt" 0 rfl (by decide)).1 (by decide) (by decide)
  rw [h]
  decide

/-- Claim C8: in the Closed state a missing file leaves the Tailer Closed,
sleeping the retry interval and recomputing the expected filename; an open
failure on an existing file logs and sleeps the retry interval with state
unchanged; and with the file missing throughout, the loop retries every
iteration indefinitely, never terminating. -/
theorem monitor_closed_retry_spec (log_dir sensor_id : String) :
    (∀ (env : Env) (s : TailerState), s.handle = none →
      Env.pathExists env s.current_file_path = false →
      monitor_step log_dir sensor_id env s =
        (⟨get_log_filename log_dir sensor_id env.year env.month, none⟩,
         [Effect.sleptRetry])) ∧
    (∀ (env : Env) (s : TailerState), s.handle = none →
      Env.pathExists env s.current_file_path = true → env.openFail = true →
      monitor_step log_dir sensor_id env s = (s, [Effect.openError, Effect.sleptRetry])) ∧
    (∀ (envs : List Env) (p : String),
      (∀ e ∈ envs, e.stop = false ∧ e.files = []) →
      (monitor_run log_dir sensor_id envs ⟨p, none⟩).1.handle = none ∧
      (monitor_run log_dir sensor_id envs ⟨p, none⟩).2 =
        List.replicate envs.length Effect.sleptRetry) := by
  refine ⟨?_, ?_, ?_⟩
  · intro env s hh hex
    obtain ⟨path, hd⟩ := s
    simp only at hh
    subst hh
    simp [monitor_step, hex]
  · intro env s hh hex hof
    obtain ⟨path, hd⟩ := s
    simp only at hh
    subst hh
    simp [monitor_step, hex, hof]
  · intro envs
    induction envs with
    | nil => intro p _; simp [monitor_run]
    | cons e rest ih =>
      intro p h
      obtain ⟨hstop, hfiles⟩ := h e (List.mem_cons_self _ _)
      have hex : Env.pathExists e p = false := by
        simp [Env.pathExists, Env.lookup, hfiles]
      have hstep : monitor_step log_dir sensor_id e ⟨p, none⟩ =
          (⟨get_log_filename log_dir sensor_id e.year e.month, none⟩,
           [Effect.sleptRetry]) := by
        simp [monitor_step, hex]
      have hrest := ih (get_log_filename log_dir sensor_id e.year e.month)
        (fun x hx => h x (List.mem_cons_of_mem _ hx))
      simp only [monitor_run, hstop, if_false, hstep, List.length_cons]
      constructor
      · exact hrest.1
      · simp [hrest.2, List.replicate_succ]

/-- Witness for `monitor_closed_retry_spec` on concrete environments. -/
theorem monitor_closed_retry_spec_witness :
    monitor_step "d" "S" ⟨false, 2023, 6, false, []⟩ ⟨"d/gvh-S-2023-05.txt", none⟩ =
      (⟨"d/gvh-S-2023-06.txt", none⟩, [Effect.sleptRetry]) ∧
    monitor_step "d" "S" ⟨false, 2023, 5, true, [("d/gvh-S-2023-05.txt", ["x"])]⟩
        ⟨"d/gvh-S-2023-05.txt", none⟩ =
      (⟨"d/gvh-S-2023-05.txt", none⟩, [Effect.openError, Effect.sleptRetry]) ∧
    (monitor_run "d" "S" [⟨false, 2023, 6, false, []⟩, ⟨false, 2023, 7, false, []⟩]
        ⟨"q", none⟩).2 = [Effect.sleptRetry, Effect.sleptRetry] := by
  refine ⟨?_, ?_, ?_⟩
  · have h := (monitor_closed_retry_spec "d" "S").1 ⟨false, 2023, 6, false, []⟩
      ⟨"d/gvh-S-2023-05.txt", none⟩ rfl (by decide)
    rw [h]; decide
  · exact (monitor_closed_retry_spec "d" "S").2.1
      ⟨false, 2023, 5, true, [("d/gvh-S-2023-05.txt", ["x"])]⟩
      ⟨"d/gvh-S-2023-05.txt", none⟩ rfl (by decide) rfl
  · have h := ((monitor_closed_retry_spec "d" "S").2.2
      [⟨false, 2023, 6, false, []⟩, ⟨false, 2023, 7, false, []⟩] "q" (by decide)).2
    rw [h]; decide

/-- Membership in a scan result: an id is returned iff some listed file
yields it and it is not already monitored. -/
lemma mem_scan_sensors {files m : List String} {sid : String} :
    sid ∈ scan_sensors files m ↔
      (∃ f ∈ files, extract_id_of_file f = some sid) ∧ sid ∉ m := by
  induction files with
  | nil => simp [scan_sensors]
  | cons f fs ih =>
    cases hf : extract_id_of_file f with
    | none =>
      simp only [scan_sensors, hf]
      rw [ih]
      constructor
      · rintro ⟨⟨x, hx, hex⟩, hnm⟩
        exact ⟨⟨x, List.mem_cons_of_mem _ hx, hex⟩, hnm⟩
      · rintro ⟨⟨x, hx, hex⟩, hnm⟩
        rcases List.mem_cons.mp hx with h | h
        · subst h; rw [hf] at hex; cases hex
        · exact ⟨⟨x, h, hex⟩, hnm⟩
    | some sid' =>
      simp only [scan_sensors, hf]
      by_cases hm : sid' ∈ m
      · rw [if_pos hm, ih]
        constructor
        · rintro ⟨⟨x, hx, hex⟩, hnm⟩
          exact ⟨⟨x, List.mem_cons_of_mem _ hx, hex⟩, hnm⟩
        · rintro ⟨⟨x, hx, hex⟩, hnm⟩
          rcases List.mem_cons.mp hx with h | h
          · subst h; rw [hf] at hex
            cases hex
            exact absurd hm hnm
          · exact ⟨⟨x, h, hex⟩, hnm⟩
      · rw [if_neg hm]
        simp only [List.mem_cons, ih]
        constructor
        · rintro (h | ⟨⟨x, hx, hex⟩, hnm⟩)
          · subst h
            exact ⟨⟨f, Or.inl rfl, hf⟩, hm⟩
          · exact ⟨⟨x, Or.inr hx, hex⟩, hnm⟩
        · rintro ⟨⟨x, hx, hex⟩, hnm⟩
          rcases hx with h | h
          · subst h; rw [hf] at hex; cases hex; exact Or.inl rfl
          · exact Or.inr ⟨⟨x, h, hex⟩, hnm⟩

/-- Claim C6: an id already in the monitored set is never returned by a scan,
and re-scanning any listing after adding everything the previous scan of it
returned yields the empty list. -/
theorem scan_sensors_set_semantics :
    (∀ (files m : List String) (sid : String), sid ∈ m →
      sid ∉ scan_sensors files m) ∧
    (∀ (files m : List String), scan_sensors files (m ++ scan_sensors files m) = []) := by
  constructor
  · intro files m sid hm hscan
    exact (mem_scan_sensors.mp hscan).2 hm
  · intro files m
    rw [List.eq_nil_iff_forall_not_mem]
    intro sid hscan
    obtain ⟨⟨f, hf, hex⟩, hnot⟩ := mem_scan_sensors.mp hscan
    rw [List.mem_append] at hnot
    push_neg at hnot
    exact hnot.2 (mem_scan_sensors.mpr ⟨⟨f, hf, hex⟩, hnot.1⟩)

/-- Witness for `scan_sensors_set_semantics` on a concrete listing. -/
theorem scan_sensors_set_semantics_witness :
    "A" ∈ ["A"] ∧ "A" ∉ scan_sensors ["gvh-A-2023-09.txt"] ["A"] ∧
    scan_sensors ["gvh-A-2023-09.txt"]
        (([] : List String) ++ scan_sensors ["gvh-A-2023-09.txt"] []) = [] :=
  ⟨by decide,
   scan_sensors_set_semantics.1 ["gvh-A-2023-09.txt"] ["A"] "A" (by decide),
   scan_sensors_set_semantics.2 ["gvh-A-2023-09.txt"] []⟩

/-- `takeWhile` runs through a block that wholly satisfies the predicate. -/
lemma takeWhile_append_of_all {p : Char → Bool} {g rest : List Char}
    (h : ∀ c ∈ g, p c = true) :
    (g ++ rest).takeWhile p = g ++ rest.takeWhile p := by
  induction g with
  | nil => simp
  | cons c cs ih =>
    simp only [List.cons_append, List.takeWhile, h c (List.mem_cons_self _ _),
      List.append_eq]
    rw [ih (fun x hx => h x (List.mem_cons_of_mem _ hx))]

/-- The greedy backtracking search returns the largest matching position. -/
lemma greedyFrom_eq_some {t : List Char} {k : Nat} (n : Nat)
    (hk1 : 1 ≤ k) (hkn : k ≤ n)
    (hchk : checkDateSuffix (t.drop k) = true)
    (hmax : ∀ j, k < j → j ≤ n → checkDateSuffix (t.drop j) = false) :
    greedyFrom n t = some k := by
  induction n with
  | zero => omega
  | succ m ih =>
    simp only [greedyFrom]
    by_cases h : checkDateSuffix (t.drop (m + 1)) = true
    · have hk : k = m + 1 := by
        by_contra hne
        have hlt : k < m + 1 := by omega
        rw [hmax (m + 1) hlt (le_refl _)] at h
        exact Bool.false_ne_true h
      rw [if_pos h, hk]
    · rw [if_neg h]
      have hkm : k ≤ m := by
        rcases Nat.lt_or_ge k (m + 1) with hlt | hge
        · omega
        · have : k = m + 1 := by omega
          rw [this] at hchk
          rw [hchk] at h
          exact absurd rfl h
      exact ih hkm (fun j hj hjm => hmax j hj (by omega))

/-- Claim C10: the discovery regex is anchored at the start but not the end
of the basename, so a `gvh-*.txt` name whose last internal date segment
`-YYYY-MM.txt` is followed by further characters is still accepted; the
DeviceId is the text between `gvh-` and that last date segment, and the
trailing characters are ignored. -/
theorem scan_accepts_unanchored_match (g rest : List Char)
    (hg : g ≠ []) (hnl : ∀ c ∈ g, c ≠ '\n')
    (hchk : checkDateSuffix rest = true)
    (hmax : ∀ j ∈ List.range ((g ++ rest).length + 1),
      g.length < j → checkDateSuffix ((g ++ rest).drop j) = false)
    (hsuf : ['.', 't', 'x', 't'].isSuffixOf
      ('g' :: 'v' :: 'h' :: '-' :: (g ++ rest)) = true) :
    extract_sensor_id (String.mk ('g' :: 'v' :: 'h' :: '-' :: (g ++ rest))) =
      some (String.mk g) ∧
    scan_sensors [String.mk ('g' :: 'v' :: 'h' :: '-' :: (g ++ rest))] [] =
      [String.mk g] := by
  have hlen : 1 ≤ g.length := by
    cases g with
    | nil => exact absurd rfl hg
    | cons c cs => simp
  have htw : ((g ++ rest).takeWhile (fun c => c ≠ '\n')).length =
      g.length + (rest.takeWhile (fun c : Char => c ≠ '\n')).length := by
    rw [takeWhile_append_of_all (p := fun c : Char => c ≠ '\n')
      (fun c hc => by simpa using hnl c hc)]
    simp
  have hbound : ((g ++ rest).takeWhile (fun c : Char => c ≠ '\n')).length ≤
      (g ++ rest).length := ( List.takeWhile_prefix _).length_le
  have hgreedy : greedyFrom ((g ++ rest).takeWhile (fun c : Char => c ≠ '\n')).length
      (g ++ rest) = some g.length := by
    apply greedyFrom_eq_some
    · exact hlen
    · rw [htw]; omega
    · rw [List.drop_left]; exact hchk
    · intro j hj hjn
      exact hmax j (List.mem_range.mpr (by omega)) hj
  have hext : extract_sensor_id (String.mk ('g' :: 'v' :: 'h' :: '-' :: (g ++ rest))) =
      some (String.mk g) := by
    simp only [extract_sensor_id, List.take, List.drop]
    rw [hgreedy]
    simp [List.take_left]
  refine ⟨hext, ?_⟩
  have hglob : globMatch (String.mk ('g' :: 'v' :: 'h' :: '-' :: (g ++ rest))) = true := by
    simp only [globMatch, Bool.and_eq_true]
    constructor
    · simp [List.isPrefixOf]
    · exact hsuf
  simp only [scan_sensors, extract_id_of_file, hglob, if_true, hext]
  simp

/-- Witness for `scan_accepts_unanchored_match`: `gvh-A-2023-10.txtX.txt` is
accepted with DeviceId `A`. -/
theorem scan_accepts_unanchored_match_witness :
    extract_sensor_id "gvh-A-2023-10.txtX.txt" = some "A" ∧
    scan_sensors ["gvh-A-2023-10.txtX.txt"] [] = ["A"] := by
  have e1 : String.mk ('g' :: 'v' :: 'h' :: '-' :: (['A'] ++ "-2023-10.txtX.txt".data)) =
      "gvh-A-2023-10.txtX.txt" := by decide
  have e2 : String.mk ['A'] = "A" := by decide
  have h := scan_accepts_unanchored_match ['A'] "-2023-10.txtX.txt".data
    (by decide) (by decide) (by decide) (by decide) (by decide)
  rw [e1, e2] at h
  exact h

/-- Tailing invariant: while no stop, no rollover, and the file only grows
(every snapshot's content a prefix of `L`), the run keeps the handle on `p`,
the cursor only advances, and the readings sent are exactly the parseable
lines of the traversed slice, in order. -/
lemma monitor_run_tailing (log_dir sensor_id p : String) (L : List String) :
    ∀ (envs : List Env) (pos : Nat),
    (∀ env ∈ envs, env.stop = false ∧
      get_log_filename log_dir sensor_id env.year env.month = p ∧
      (Env.lookup env p).isSome = true ∧
      ((Env.lookup env p).getD []).isPrefixOf L = true) →
    pos ≤ L.length →
    ∃ pos',
      (monitor_run log_dir sensor_id envs ⟨p, some (p, pos)⟩).1 = ⟨p, some (p, pos')⟩ ∧
      pos ≤ pos' ∧ pos' ≤ L.length ∧
      sentOf (monitor_run log_dir sensor_id envs ⟨p, some (p, pos)⟩).2 =
        ((L.take pos').drop pos).filterMap parse_line := by
  intro envs
  induction envs with
  | nil =>
    intro pos _ hpos
    refine ⟨pos, rfl, le_refl _, hpos, ?_⟩
    rw [List.drop_eq_nil_of_le (by simp [List.length_take])]
    simp [monitor_run, sentOf]
  | cons env rest ih =>
    intro pos henv hpos
    obtain ⟨hstop, hexp, hsome, hpre⟩ := henv env (List.mem_cons_self _ _)
    obtain ⟨cf, hc⟩ := Option.isSome_iff_exists.mp hsome
    have hcL : cf <+: L := by
      have h := hpre
      rw [hc] at h
      simpa using h
    have hrest := fun x hx => henv x (List.mem_cons_of_mem _ hx)
    cases hread : Env.readline env p pos with
    | some line =>
      have hread' : cf[pos]? = some line := by
        have h := hread
        simp only [Env.readline, hc] at h
        exact h
      have hlt : pos < cf.length := by
        rcases List.getElem?_eq_some.mp hread' with ⟨h, _⟩
        exact h
      have hposL : pos < L.length := lt_of_lt_of_le hlt hcL.length_le
      have hline : line = L[pos] := by
        rw [List.getElem?_eq_getElem hlt] at hread'
        have h := Option.some.inj hread'
        rw [← h, hcL.getElem hlt]
      have hstep : monitor_step log_dir sensor_id env ⟨p, some (p, pos)⟩ =
          (⟨p, some (p, pos + 1)⟩,
           match parse_line line with
           | some r => [Effect.sent r]
           | none => []) := by
        simp only [monitor_step, hread]
        cases parse_line line <;> rfl
      obtain ⟨pos', hst, hle, hlen, hsent⟩ := ih (pos + 1) hrest (by omega)
      refine ⟨pos', ?_, by omega, hlen, ?_⟩
      · simp only [monitor_run, hstop, Bool.false_eq_true, if_false, hstep]
        exact hst
      · simp only [monitor_run, hstop, Bool.false_eq_true, if_false, hstep]
        have hcons : (L.take pos').drop pos = L[pos] :: ((L.take pos').drop (pos + 1)) := by
          have h1 : pos < (L.take pos').length := by
            simp only [List.length_take]
            omega
          rw [List.drop_eq_getElem_cons h1]
          congr 1
          have h2 := List.getElem?_take_of_lt (l := L) (n := pos') (m := pos) (by omega)
          rw [List.getElem?_eq_getElem h1, List.getElem?_eq_getElem hposL] at h2
          exact Option.some.inj h2
        rw [hcons, List.filterMap_cons, ← hline]
        cases hpl : parse_line line with
        | none => simpa [sentOf, hpl] using hsent
        | some r => simpa [sentOf, hpl] using hsent
    | none =>
      have hstep : monitor_step log_dir sensor_id env ⟨p, some (p, pos)⟩ =
          (⟨p, some (p, pos)⟩, [Effect.sleptCheck]) := by
        simp only [monitor_step, hread]
        rw [if_neg]
        rw [hexp]
        simp
      obtain ⟨pos', hst, hle, hlen, hsent⟩ := ih pos hrest hpos
      refine ⟨pos', ?_, hle, hlen, ?_⟩
      · simp only [monitor_run, hstop, Bool.false_eq_true, if_false, hstep]
        exact hst
      · simp only [monitor_run, hstop, Bool.false_eq_true, if_false, hstep]
        simpa [sentOf] using hsent

/-- Claim C2: a Tailer session on one file opens it with the cursor at the
end of the content present at open time, and the readings handed to
`send_record` are exactly the in-order parseable subsequence of the lines
appended after the open: pre-existing lines are never delivered, invalid
lines are dropped silently, and no reordering occurs. -/
theorem monitor_tail_from_end (log_dir sensor_id p : String) (L : List String)
    (env0 : Env) (envs : List Env)
    (hall : ∀ env ∈ env0 :: envs, env.stop = false ∧ env.openFail = false ∧
      get_log_filename log_dir sensor_id env.year env.month = p ∧
      (Env.lookup env p).isSome = true ∧
      ((Env.lookup env p).getD []).isPrefixOf L = true) :
    ∃ pos',
      (monitor_run log_dir sensor_id (env0 :: envs) ⟨p, none⟩).1 =
        ⟨p, some (p, pos')⟩ ∧
      ((Env.lookup env0 p).getD []).length ≤ pos' ∧ pos' ≤ L.length ∧
      sentOf (monitor_run log_dir sensor_id (env0 :: envs) ⟨p, none⟩).2 =
        ((L.take pos').drop ((Env.lookup env0 p).getD []).length).filterMap
          parse_line := by
  obtain ⟨hstop, hof, hexp, hsome, hpre⟩ := hall env0 (List.mem_cons_self _ _)
  obtain ⟨cf, hc⟩ := Option.isSome_iff_exists.mp hsome
  have hcL : cf <+: L := by
    have h := hpre
    rw [hc] at h
    simpa using h
  have hn0 : ((Env.lookup env0 p).getD []).length = cf.length := by rw [hc]; rfl
  have hex : Env.pathExists env0 p = true := by
    simp [Env.pathExists, hsome]
  have hstep : monitor_step log_dir sensor_id env0 ⟨p, none⟩ =
      (⟨p, some (p, cf.length)⟩, [Effect.opened p]) := by
    simp only [monitor_step, hex, if_true, hof, Bool.false_eq_true, if_false, hc]
    rfl
  obtain ⟨pos', hst, hle, hlen, hsent⟩ :=
    monitor_run_tailing log_dir sensor_id p L envs cf.length
      (fun x hx => ((hall x (List.mem_cons_of_mem _ hx)).imp
        (fun h => h) (fun h => h.2)))
      (hcL.length_le)
  refine ⟨pos', ?_, ?_, hlen, ?_⟩
  · simp only [monitor_run, hstop, Bool.false_eq_true, if_false, hstep]
    exact hst
  · rw [hn0]; exact hle
  · simp only [monitor_run, hstop, Bool.false_eq_true, if_false, hstep]
    rw [hn0]
    simpa [sentOf] using hsent

/-- Witness for `monitor_tail_from_end`: one pre-existing line is skipped,
one valid appended line is sent, one invalid appended line is dropped. -/
theorem monitor_tail_from_end_witness :
    ∃ pos',
      (monitor_run "d" "S"
          [⟨false, 2023, 5, false, [("d/gvh-S-2023-05.txt", ["old"])]⟩,
           ⟨false, 2023, 5, false,
             [("d/gvh-S-2023-05.txt", ["old", "2023-05-01 10:00 20 50 99"])]⟩,
           ⟨false, 2023, 5, false,
             [("d/gvh-S-2023-05.txt", ["old", "2023-05-01 10:00 20 50 99", "x y"])]⟩,
           ⟨false, 2023, 5, false,
             [("d/gvh-S-2023-05.txt", ["old", "2023-05-01 10:00 20 50 99", "x y"])]⟩]
          ⟨"d/gvh-S-2023-05.txt", none⟩).1 =
        ⟨"d/gvh-S-2023-05.txt", some ("d/gvh-S-2023-05.txt", pos')⟩ ∧
      ((Env.lookup ⟨false, 2023, 5, false, [("d/gvh-S-2023-05.txt", ["old"])]⟩
          "d/gvh-S-2023-05.txt").getD []).length ≤ pos' ∧
      pos' ≤ (["old", "2023-05-01 10:00 20 50 99", "x y"] : List String).length ∧
      sentOf (monitor_run "d" "S"
          [⟨false, 2023, 5, false, [("d/gvh-S-2023-05.txt", ["old"])]⟩,
           ⟨false, 2023, 5, false,
             [("d/gvh-S-2023-05.txt", ["old", "2023-05-01 10:00 20 50 99"])]⟩,
           ⟨false, 2023, 5, false,
             [("d/gvh-S-2023-05.txt", ["old", "2023-05-01 10:00 20 50 99", "x y"])]⟩,
           ⟨false, 2023, 5, false,
             [("d/gvh-S-2023-05.txt", ["old", "2023-05-01 10:00 20 50 99", "x y"])]⟩]
          ⟨"d/gvh-S-2023-05.txt", none⟩).2 =
        ((List.take pos' ["old", "2023-05-01 10:00 20 50 99", "x y"]).drop
          ((Env.lookup ⟨false, 2023, 5, false, [("d/gvh-S-2023-05.txt", ["old"])]⟩
            "d/gvh-S-2023-05.txt").getD []).length).filterMap parse_line :=
  monitor_tail_from_end "d" "S" "d/gvh-S-2023-05.txt"
    ["old", "2023-05-01 10:00 20 50 99", "x y"]
    ⟨false, 2023, 5, false, [("d/gvh-S-2023-05.txt", ["old"])]⟩
    [⟨false, 2023, 5, false,
       [("d/gvh-S-2023-05.txt", ["old", "2023-05-01 10:00 20 50 99"])]⟩,
     ⟨false, 2023, 5, false,
       [("d/gvh-S-2023-05.txt", ["old", "2023-05-01 10:00 20 50 99", "x y"])]⟩,
     ⟨false, 2023, 5, false,
       [("d/gvh-S-2023-05.txt", ["old", "2023-05-01 10:00 20 50 99", "x y"])]⟩]
    (by decide)

end GoveeMonitor
